import Mathlib

/-!
Shallow embedding of the `TranslationScreen` component of the multilingual
public-transport communication app (React Native client).

Modelling conventions:
* The React `useState` fields of the screen are collected in `ScreenState`;
  the `useRef` cells (`recordingRef`, `recordingTimeoutRef`, `isRecordingRef`,
  `isMountedRef`) in `Refs`.  A `Component` is the pair of both.
* The native audio layer (expo-av) is modelled by `World`: `liveIds` is the
  list of native recording resources currently acquired, `nextId` allocates
  fresh resource identifiers.  `Audio.Recording.prepareToRecordAsync` +
  `startAsync` acquire a resource (atomically here: the failure oracle
  `prepOk` covers the whole acquisition); `stopAndUnloadAsync` releases it.
  Modelling assumption: unloading releases the native resource even when the
  underlying call reports an error (the code swallows such errors and relies
  on release; its `finally` blocks clear the JS reference either way).
* Each asynchronous JS handler is embedded as a pure function from the
  component (plus oracle parameters for the outcomes of awaited external
  calls) to the new component, together with a list of observable `Effect`s
  (alerts, vibration, speech playback, the HTTP translation request).
* React closure semantics: a handler body reads the `useState` values of the
  render in which the closure was created (its snapshot), while `useRef`
  reads and `setX` writes act on the live component.  This matters for the
  `setTimeout(() => speakTranslatedText(), 500)` and
  `setTimeout(() => handleTranslate(), 100)` calls: the enqueued closures see
  the state snapshot from before the `setX` call that precedes them.
  `handleTranslate` therefore takes the snapshot `snap` it closes over
  separately from the live component it updates.
-/

namespace TaxiTranslator

/-- One entry of the language catalog returned by `GET /languages`. -/
structure Language where
  lang_id : Nat
  lang_code : String
  lang_name : String
deriving DecidableEq

/-- The `useState` fields of `TranslationScreen`. -/
structure ScreenState where
  inputText : String
  translatedText : String
  targetLanguage : String
  loading : Bool
  isRecording : Bool
  isListening : Bool
  languages : List Language
  recordingDuration : Nat
  hasAudioPermission : Bool
  isTranscribing : Bool
deriving DecidableEq

/-- The `useRef` cells of `TranslationScreen`.  `recordingRef` holds the id of
the `Audio.Recording` object (if any), `timeoutArmed` whether
`recordingTimeoutRef` holds a pending auto-stop timeout. -/
structure Refs where
  recordingRef : Option Nat
  timeoutArmed : Bool
  isRecordingRef : Bool
  isMountedRef : Bool
deriving DecidableEq

/-- A component instance: React state plus refs. -/
structure Component where
  st : ScreenState
  refs : Refs
deriving DecidableEq

/-- The native audio layer: which recording resources are live. -/
structure World where
  nextId : Nat
  liveIds : List Nat
deriving DecidableEq

/-- Observable effects emitted by the handlers. -/
inductive Effect where
  | alert (title msg : String)
  | vibrate (ms : Nat)
  | speak (text lang : String)
  | httpTranslate (text src tgt : String)
deriving DecidableEq

/-- Oracle for one run of `stopRecording`: whether `stopAndUnloadAsync`
throws, and the random index drawn by `simulateSpeechRecognition`. -/
structure StopEnv where
  stopThrows : Bool
  randIdx : Nat
deriving DecidableEq

/-- Outcome of the `GET /languages` fetch in `loadLanguages`: `fail` is a
network error or non-OK response; `ok ls` is a 2xx response whose JSON body
has `languages = ls` (`none` when the field is absent). -/
inductive LoadOutcome where
  | fail
  | ok (languages : Option (List Language))
deriving DecidableEq

/-- Initial `useState` values (lines 359-368 of the source). -/
def initialState : ScreenState :=
  { inputText := ""
    translatedText := ""
    targetLanguage := "zu"
    loading := false
    isRecording := false
    isListening := false
    languages := []
    recordingDuration := 0
    hasAudioPermission := false
    isTranscribing := false }

/-- Initial `useRef` values (lines 370-374). -/
def initialRefs : Refs :=
  { recordingRef := none
    timeoutArmed := false
    isRecordingRef := false
    isMountedRef := true }

def initialComponent : Component := ⟨initialState, initialRefs⟩

def initialWorld : World := ⟨0, []⟩

/-- `setIsRecording(false); setIsListening(false)` guarded by
`isMountedRef.current`, as it appears on every cleanup path. -/
def clearedFlags (st : ScreenState) (mounted : Bool) : ScreenState :=
  if mounted then { st with isRecording := false, isListening := false } else st

/-- `cleanupRecording` (lines 414-436): if a recording object is referenced,
stop-and-unload it when its status is still recording, null the reference,
clear `isRecordingRef`, and clear the UI flags when still mounted. -/
def cleanupRecording (c : Component) (w : World) : Component × World :=
  let w1 : World :=
    match c.refs.recordingRef with
    | some id =>
        if w.liveIds.contains id then { w with liveIds := w.liveIds.erase id } else w
    | none => w
  let refs1 : Refs := { c.refs with recordingRef := none, isRecordingRef := false }
  (⟨clearedFlags c.st refs1.isMountedRef, refs1⟩, w1)

/-- The hard-coded fallback language set of `loadLanguages`
(lines 452-457). -/
def defaultLanguages : List Language :=
  [⟨1, "zu", "isiZulu"⟩, ⟨2, "xh", "isiXhosa"⟩, ⟨3, "af", "Afrikaans"⟩,
   ⟨4, "st", "Sesotho"⟩]

/-- `loadLanguages` (lines 438-459).  Note that `setLanguages` is invoked
without consulting `isMountedRef` on either path. -/
def loadLanguages (c : Component) (outcome : LoadOutcome) :
    Component × List Effect :=
  match outcome with
  | .ok ls => (⟨{ c.st with languages := ls.getD [] }, c.refs⟩, [])
  | .fail =>
      (⟨{ c.st with languages := defaultLanguages }, c.refs⟩,
       [Effect.alert "Error" "Failed to load languages. Using default languages."])

/-- `setupAudio` (lines 461-486), with the permission outcome as oracle.
`setHasAudioPermission` is invoked without consulting `isMountedRef`. -/
def setupAudio (c : Component) (granted : Bool) : Component × List Effect :=
  if granted then (⟨{ c.st with hasAudioPermission := true }, c.refs⟩, [])
  else
    (⟨{ c.st with hasAudioPermission := false }, c.refs⟩,
     [Effect.alert "Permission Required"
        "Microphone permission is required for voice translation"])

/-- The list bound to `commonPhrases` inside `simulateSpeechRecognition`
(lines 683-704). -/
def commonPhrases : List String :=
  ["How much is the fare?", "Where are you going?", "Please stop here",
   "Thank you", "This is your stop", "Exact change please",
   "Buckle your seatbelt", "Next stop coming up", "Please move to the back",
   "Watch your step", "Good morning", "Good afternoon", "Have a nice day",
   "How long until we arrive?", "This bus goes to the city",
   "I need to get to the airport", "What time does the next bus come?",
   "Is this the right bus for downtown?", "How much luggage can I bring?",
   "Do you accept credit cards?"]

/-- `simulateSpeechRecognition` (lines 679-710): picks a phrase by the random
index. -/
def simulateSpeechRecognition (randIdx : Nat) : String :=
  commonPhrases.getD (randIdx % commonPhrases.length) ""

/-- `processRecordedAudio` (lines 633-677): bails out when unmounted,
otherwise sets `isTranscribing` (true for the duration, false again in the
`finally`), fills the input field with the recognized phrase and raises the
confirmation alert.  The alert buttons themselves are user-driven and outside
this function. -/
def processRecordedAudio (c : Component) (randIdx : Nat) :
    Component × List Effect :=
  if c.refs.isMountedRef = false then (c, [])
  else
    let phrase := simulateSpeechRecognition randIdx
    (⟨{ c.st with inputText := phrase, isTranscribing := false }, c.refs⟩,
     [Effect.alert "Voice Input" ("Detected: \"" ++ phrase ++ "\"")])

/-- Result of `stopRecording`: new component, native world, effects, and the
recording URI handed to `processRecordedAudio` (if any). -/
structure StopResult where
  comp : Component
  world : World
  effects : List Effect
  uri : Option Nat
deriving DecidableEq

/-- `stopRecording` (lines 565-631): vibrate, clear the auto-stop timeout,
return early when no live recording reference exists; otherwise query the
status, stop-and-unload when actively recording (the URI is only obtained
when the stop call does not throw), and in the `finally` always null the
reference, clear `isRecordingRef` and — when mounted — the UI flags.  A
produced URI is then fed to `processRecordedAudio`. -/
def stopRecording (c : Component) (w : World) (env : StopEnv) : StopResult :=
  let refs1 : Refs := { c.refs with timeoutArmed := false }
  if c.refs.isRecordingRef = false ∨ c.refs.recordingRef = none then
    ⟨⟨clearedFlags c.st refs1.isMountedRef, refs1⟩, w, [Effect.vibrate 100], none⟩
  else
    let id := c.refs.recordingRef.getD 0
    let live := w.liveIds.contains id
    let w1 : World := if live then { w with liveIds := w.liveIds.erase id } else w
    let uri : Option Nat := if live && !env.stopThrows then some id else none
    let refs2 : Refs := { refs1 with recordingRef := none, isRecordingRef := false }
    let c2 : Component := ⟨clearedFlags c.st refs2.isMountedRef, refs2⟩
    match uri with
    | some u =>
        let pr := processRecordedAudio c2 env.randIdx
        ⟨pr.1, w1, Effect.vibrate 100 :: pr.2, some u⟩
    | none => ⟨c2, w1, [Effect.vibrate 100], none⟩

/-- `startRecording` (lines 488-563): refuse without permission; otherwise
clean up any existing recording, wait the settling delay, vibrate, and
acquire a fresh recording resource.  On success the reference and flags are
set and the one-shot 8-second auto-stop timeout is (re-)armed; on acquisition
failure the reference is nulled, the flags cleared and an alert raised (the
failure path does not touch the timeout). -/
def startRecording (c : Component) (w : World) (prepOk : Bool) :
    Component × World × List Effect :=
  if c.st.hasAudioPermission = false then
    (c, w, [Effect.alert "Permission Required" "Microphone permission is required"])
  else
    let cw := cleanupRecording c w
    let c1 := cw.1
    let w1 := cw.2
    let id := w1.nextId
    if prepOk then
      let w2 : World := { nextId := id + 1, liveIds := w1.liveIds ++ [id] }
      let refs2 : Refs :=
        { c1.refs with recordingRef := some id, isRecordingRef := true,
                       timeoutArmed := true }
      let st2 : ScreenState :=
        if refs2.isMountedRef then
          { c1.st with isRecording := true, isListening := true }
        else c1.st
      (⟨st2, refs2⟩, w2, [Effect.vibrate 100])
    else
      let w2 : World := { w1 with nextId := id + 1 }
      let refs2 : Refs := { c1.refs with recordingRef := none, isRecordingRef := false }
      (⟨clearedFlags c1.st refs2.isMountedRef, refs2⟩, w2,
       [Effect.vibrate 100,
        Effect.alert "Recording Error" "Failed to start recording. Please try again."])

/-- Expiry of the auto-stop timeout armed in `startRecording`
(lines 538-543): the one-shot timer fires only while still armed (a
`clearTimeout` disarms it), and its callback calls `stopRecording` only when
`isRecordingRef.current` is still set. -/
def timerExpire (c : Component) (w : World) (env : StopEnv) : StopResult :=
  if c.refs.timeoutArmed = false then ⟨c, w, [], none⟩
  else
    let c1 : Component := ⟨c.st, { c.refs with timeoutArmed := false }⟩
    if c1.refs.isRecordingRef then stopRecording c1 w env
    else ⟨c1, w, [], none⟩

/-- The target-language to speech-locale mapping of `speakTranslatedText`
(lines 767-771). -/
def languageCodeFor (target : String) : String :=
  if target = "zu" then "zu-ZA"
  else if target = "xh" then "xh-ZA"
  else if target = "af" then "af-ZA"
  else if target = "st" then "st-ZA"
  else "en-US"

/-- `speakTranslatedText` (lines 764-787): the closure reads `translatedText`
and `targetLanguage` from the render snapshot it was created in, and the live
`isMountedRef`. -/
def speakTranslatedText (snap : ScreenState) (mountedNow : Bool) : List Effect :=
  if snap.translatedText ≠ "" ∧ mountedNow = true then
    [Effect.speak snap.translatedText (languageCodeFor snap.targetLanguage)]
  else []

/-- JavaScript `String.prototype.trim`: strip leading and trailing
whitespace.  (Defined over the character list so that it is kernel-
computable.) -/
def jsTrim (s : String) : String :=
  ⟨((s.data.dropWhile Char.isWhitespace).reverse.dropWhile Char.isWhitespace).reverse⟩

/-- `handleTranslate` (lines 712-762).  `snap` is the render snapshot the
closure reads `inputText`/`targetLanguage` from; `c` is the live component
the setters write to.  `outcome` is the translation response (`some t` for a
2xx body with `translated_text = t`, `none` for a network failure or non-2xx
status).  On success the deferred `setTimeout(() => speakTranslatedText(),
500)` runs the speak closure of the same render snapshot. -/
def handleTranslate (snap : ScreenState) (c : Component) (outcome : Option String) :
    Component × List Effect :=
  if jsTrim snap.inputText = "" then
    (c, [Effect.alert "Error" "Please enter text to translate"])
  else if c.refs.isMountedRef = false then (c, [])
  else
    let req := Effect.httpTranslate snap.inputText "en" snap.targetLanguage
    match outcome with
    | some t =>
        (⟨{ c.st with translatedText := t, loading := false }, c.refs⟩,
         req :: speakTranslatedText snap c.refs.isMountedRef)
    | none =>
        (⟨{ c.st with loading := false }, c.refs⟩,
         [req,
          Effect.alert "Translation Error"
            "Failed to translate text. Please check your connection and try again."])

/-- A direct press of the translate button: the snapshot is the current
state. -/
def handleTranslateNow (c : Component) (outcome : Option String) :
    Component × List Effect :=
  handleTranslate c.st c outcome

/-- `handleQuickPhrase` (lines 793-801): bail out when unmounted, set the
input field to the phrase, and defer `handleTranslate` via
`setTimeout(..., 100)` — the deferred closure is the one created in the
render *before* `setInputText(phrase)`, so its snapshot still holds the old
input text. -/
def handleQuickPhrase (c : Component) (phrase : String) (outcome : Option String) :
    Component × List Effect :=
  if c.refs.isMountedRef = false then (c, [])
  else
    let snap := c.st
    let c1 : Component := ⟨{ c.st with inputText := phrase }, c.refs⟩
    handleTranslate snap c1 outcome

/-- One tick of the display-duration interval (lines 395-412): the interval
exists exactly while `isRecording` holds and runs
`setRecordingDuration(prev => prev + 1)`. -/
def durationTick (c : Component) : Component :=
  if c.st.isRecording then
    ⟨{ c.st with recordingDuration := c.st.recordingDuration + 1 }, c.refs⟩
  else c

/-- The operations that can act on the screen, with the oracle outcomes of
their awaited external calls. -/
inductive Op where
  | start (prepOk : Bool)
  | stop (env : StopEnv)
  | cleanup
  | timer (env : StopEnv)
  | tick
  | load (outcome : LoadOutcome)
  | permission (granted : Bool)
  | translate (outcome : Option String)
  | quickPhrase (phrase : String) (outcome : Option String)
deriving DecidableEq

/-- Run one operation, keeping component and native world. -/
def runOp (cw : Component × World) : Op → Component × World
  | .start p => let r := startRecording cw.1 cw.2 p; (r.1, r.2.1)
  | .stop env => let r := stopRecording cw.1 cw.2 env; (r.comp, r.world)
  | .cleanup => cleanupRecording cw.1 cw.2
  | .timer env => let r := timerExpire cw.1 cw.2 env; (r.comp, r.world)
  | .tick => (durationTick cw.1, cw.2)
  | .load o => ((loadLanguages cw.1 o).1, cw.2)
  | .permission g => ((setupAudio cw.1 g).1, cw.2)
  | .translate o => ((handleTranslateNow cw.1 o).1, cw.2)
  | .quickPhrase p o => ((handleQuickPhrase cw.1 p o).1, cw.2)

/-- Run a sequence of operations. -/
def runOps (cw : Component × World) (ops : List Op) : Component × World :=
  ops.foldl runOp cw

/-!  The single-slot ownership invariant of the capture controller: either no
native recording resource is live, or exactly the one referenced by
`recordingRef` is, with `isRecordingRef` set; and the JS-side flag always
mirrors whether a recording object is referenced. -/

def CaptureInv (c : Component) (w : World) : Prop :=
  (w.liveIds = [] ∧ c.refs.isRecordingRef = c.refs.recordingRef.isSome) ∨
  (∃ id, w.liveIds = [id] ∧ c.refs.recordingRef = some id ∧
    c.refs.isRecordingRef = true)

lemma inv_of_fields (c c' : Component) (w : World) (h : CaptureInv c w)
    (h1 : c'.refs.recordingRef = c.refs.recordingRef)
    (h2 : c'.refs.isRecordingRef = c.refs.isRecordingRef) : CaptureInv c' w := by
  rcases h with ⟨hl, hs⟩ | ⟨id, hl, href, hrec⟩
  · exact Or.inl ⟨hl, by rw [h1, h2]; exact hs⟩
  · exact Or.inr ⟨id, hl, by rw [h1, href], by rw [h2]; exact hrec⟩

lemma inv_of_refs_eq (c c' : Component) (w : World) (h : CaptureInv c w)
    (he : c'.refs = c.refs) : CaptureInv c' w :=
  inv_of_fields c c' w h (by rw [he]) (by rw [he])

lemma durationTick_refs (c : Component) : (durationTick c).refs = c.refs := by
  unfold durationTick
  split <;> rfl

lemma setupAudio_refs (c : Component) (g : Bool) :
    (setupAudio c g).1.refs = c.refs := by
  unfold setupAudio
  split <;> rfl

lemma processRecordedAudio_refs (c : Component) (r : Nat) :
    (processRecordedAudio c r).1.refs = c.refs := by
  unfold processRecordedAudio
  split <;> rfl

lemma handleTranslate_refs (snap : ScreenState) (c : Component) (o : Option String) :
    (handleTranslate snap c o).1.refs = c.refs := by
  unfold handleTranslate
  split
  · rfl
  · split
    · rfl
    · cases o <;> rfl

lemma handleQuickPhrase_refs (c : Component) (p : String) (o : Option String) :
    (handleQuickPhrase c p o).1.refs = c.refs := by
  unfold handleQuickPhrase
  split
  · rfl
  · rw [handleTranslate_refs]

lemma inv_cleanup (c : Component) (w : World) (h : CaptureInv c w) :
    CaptureInv (cleanupRecording c w).1 (cleanupRecording c w).2 := by
  left
  refine ⟨?_, rfl⟩
  unfold cleanupRecording
  rcases h with ⟨hl, _⟩ | ⟨id, hl, href, _⟩
  · split <;> simp_all
  · split <;> simp_all

lemma cleanup_liveIds (c : Component) (w : World) (h : CaptureInv c w) :
    (cleanupRecording c w).2.liveIds = [] := by
  rcases inv_cleanup c w h with ⟨hl, _⟩ | ⟨id, _, href, _⟩
  · exact hl
  · exact absurd href (by simp [cleanupRecording])

lemma inv_start (c : Component) (w : World) (p : Bool) (h : CaptureInv c w) :
    CaptureInv (startRecording c w p).1 (startRecording c w p).2.1 := by
  unfold startRecording
  by_cases hp : c.st.hasAudioPermission = false
  · simp only [hp, if_true]
    exact h
  · simp only [hp, if_false]
    have hnil := cleanup_liveIds c w h
    by_cases hpk : p = true
    · subst hpk
      simp only [if_true]
      exact Or.inr ⟨(cleanupRecording c w).2.nextId, by simp [hnil], rfl, rfl⟩
    · simp only [hpk, if_false]
      exact Or.inl ⟨hnil, rfl⟩

lemma inv_stop (c : Component) (w : World) (env : StopEnv) (h : CaptureInv c w) :
    CaptureInv (stopRecording c w env).comp (stopRecording c w env).world := by
  unfold stopRecording
  split
  · rename_i hg
    rcases h with ⟨hl, hs⟩ | ⟨id, hl, href, hrec⟩
    · exact Or.inl ⟨hl, hs⟩
    · rcases hg with hg | hg
      · rw [hrec] at hg; exact absurd hg (by simp)
      · rw [href] at hg; exact absurd hg (by simp)
  · rename_i hg
    rcases h with ⟨hl, hs⟩ | ⟨id, hl, href, hrec⟩
    · -- no live resource: the status query reports not recording
      have hlive : w.liveIds.contains (c.refs.recordingRef.getD 0) = false := by
        rw [hl]; rfl
      refine Or.inl ⟨?_, ?_⟩ <;> simp [hlive, hl]
    · have hid : c.refs.recordingRef.getD 0 = id := by rw [href]; rfl
      have hlive : w.liveIds.contains (c.refs.recordingRef.getD 0) = true := by
        rw [hid, hl]; simp
      cases henv : env.stopThrows <;>
        · refine Or.inl ⟨?_, ?_⟩ <;>
            simp [hlive, hid, hl, processRecordedAudio_refs]

lemma inv_timer (c : Component) (w : World) (env : StopEnv) (h : CaptureInv c w) :
    CaptureInv (timerExpire c w env).comp (timerExpire c w env).world := by
  unfold timerExpire
  by_cases ht : c.refs.timeoutArmed = false
  · simp only [ht, if_true]
    exact h
  · simp only [ht, if_false]
    cases hr : c.refs.isRecordingRef with
    | true =>
        simp [hr]
        exact inv_stop _ w env (inv_of_fields c _ w h rfl (by rw [hr]))
    | false =>
        simp [hr]
        exact inv_of_fields c _ w h rfl (by rw [hr])

lemma inv_runOp (cw : Component × World) (op : Op) (h : CaptureInv cw.1 cw.2) :
    CaptureInv (runOp cw op).1 (runOp cw op).2 := by
  cases op with
  | start p => exact inv_start cw.1 cw.2 p h
  | stop env => exact inv_stop cw.1 cw.2 env h
  | cleanup => exact inv_cleanup cw.1 cw.2 h
  | timer env => exact inv_timer cw.1 cw.2 env h
  | tick => exact inv_of_refs_eq cw.1 _ cw.2 h (durationTick_refs cw.1)
  | load o =>
      cases o <;> exact inv_of_fields cw.1 _ cw.2 h rfl rfl
  | permission g => exact inv_of_refs_eq cw.1 _ cw.2 h (setupAudio_refs cw.1 g)
  | translate o =>
      exact inv_of_refs_eq cw.1 _ cw.2 h (handleTranslate_refs cw.1.st cw.1 o)
  | quickPhrase p o =>
      exact inv_of_refs_eq cw.1 _ cw.2 h (handleQuickPhrase_refs cw.1 p o)

lemma inv_runOps (ops : List Op) :
    ∀ cw : Component × World, CaptureInv cw.1 cw.2 →
      CaptureInv (runOps cw ops).1 (runOps cw ops).2 := by
  induction ops with
  | nil => intro cw h; exact h
  | cons op rest ih => intro cw h; exact ih (runOp cw op) (inv_runOp cw op h)

lemma inv_initial : CaptureInv initialComponent initialWorld :=
  Or.inl ⟨rfl, rfl⟩

/-- C1: for every sequence of operations on the capture controller (start,
stop, cleanup, timer expiry, and the other screen operations, under all
acquisition/stop-failure outcomes), at most one live native recording
resource exists: `start` releases any prior resource via `cleanupRecording`
before acquiring a new one. -/
theorem at_most_one_live_recording (ops : List Op) :
    ((runOps (initialComponent, initialWorld) ops).2.liveIds).length ≤ 1 := by
  rcases inv_runOps ops (initialComponent, initialWorld) inv_initial with
    ⟨hl, _⟩ | ⟨id, hl, _⟩ <;> simp [hl]

/-!  Interleavings of timer expiry and manual stop after a start. -/

/-- An event racing against a live recording: a user-initiated stop or the
expiry of the auto-stop timeout. -/
inductive StopEv where
  | manual (env : StopEnv)
  | timer (env : StopEnv)
deriving DecidableEq

def runStopEv (cw : Component × World) : StopEv → Component × World
  | .manual env => let r := stopRecording cw.1 cw.2 env; (r.comp, r.world)
  | .timer env => let r := timerExpire cw.1 cw.2 env; (r.comp, r.world)

/-- How many events of the sequence actually stop a live recording, i.e.
release a native recording resource. -/
def effectiveStops (cw : Component × World) : List StopEv → Nat
  | [] => 0
  | e :: rest =>
      (if ((runStopEv cw e).2.liveIds.length < cw.2.liveIds.length) then 1 else 0) +
        effectiveStops (runStopEv cw e) rest

/-- After the one effective stop: flag cleared, timer disarmed, no live
resource. -/
def StopSettled (c : Component) (w : World) : Prop :=
  c.refs.isRecordingRef = false ∧ c.refs.timeoutArmed = false ∧ w.liveIds = []

lemma settled_step (c : Component) (w : World) (e : StopEv) (h : StopSettled c w) :
    StopSettled (runStopEv (c, w) e).1 (runStopEv (c, w) e).2 ∧
      (runStopEv (c, w) e).2 = w := by
  obtain ⟨h1, h2, h3⟩ := h
  cases e with
  | manual env =>
      refine ⟨⟨?_, ?_, ?_⟩, ?_⟩ <;> simp [runStopEv, stopRecording, h1, h3]
  | timer env =>
      refine ⟨⟨?_, ?_, ?_⟩, ?_⟩ <;> simp [runStopEv, timerExpire, h1, h2, h3]

lemma settled_count (evs : List StopEv) :
    ∀ c w, StopSettled c w → effectiveStops (c, w) evs = 0 := by
  induction evs with
  | nil => intro c w _; rfl
  | cons e rest ih =>
      intro c w h
      obtain ⟨hs, hw⟩ := settled_step c w e h
      have h0 : effectiveStops (runStopEv (c, w) e) rest = 0 := ih _ _ hs
      simp [effectiveStops, hw, h0]

lemma recording_step (c : Component) (w : World) (id : Nat) (e : StopEv)
    (h1 : c.refs.recordingRef = some id) (h2 : c.refs.isRecordingRef = true)
    (h3 : c.refs.timeoutArmed = true) (h4 : w.liveIds = [id]) :
    StopSettled (runStopEv (c, w) e).1 (runStopEv (c, w) e).2 ∧
      (runStopEv (c, w) e).2.liveIds = [] := by
  cases e with
  | manual env =>
      cases henv : env.stopThrows <;>
        refine ⟨⟨?_, ?_, ?_⟩, ?_⟩ <;>
          simp [runStopEv, stopRecording, processRecordedAudio_refs,
            h1, h2, h4, henv]
  | timer env =>
      cases henv : env.stopThrows <;>
        refine ⟨⟨?_, ?_, ?_⟩, ?_⟩ <;>
          simp [runStopEv, timerExpire, stopRecording, processRecordedAudio_refs,
            h1, h2, h3, h4, henv]

/-- C2: from the state a successful start() produces (live resource, recording
flag set, one-shot auto-stop timer armed), every nonempty interleaving of
manual stops and timer expiries performs exactly one effective stop: the
first event stops and releases the recording, a manual stop disarms the
timer, a fired timer finds the live-recording flag cleared after a manual
stop, and a repeated manual stop takes the idempotent no-session branch. -/
theorem timer_and_manual_stop_exactly_once (c : Component) (w : World) (id : Nat)
    (evs : List StopEv)
    (h1 : c.refs.recordingRef = some id) (h2 : c.refs.isRecordingRef = true)
    (h3 : c.refs.timeoutArmed = true) (h4 : w.liveIds = [id])
    (hne : evs ≠ []) : effectiveStops (c, w) evs = 1 := by
  cases evs with
  | nil => exact absurd rfl hne
  | cons e rest =>
      obtain ⟨hs, hnil⟩ := recording_step c w id e h1 h2 h3 h4
      have h0 : effectiveStops (runStopEv (c, w) e) rest = 0 :=
        settled_count rest _ _ hs
      simp [effectiveStops, hnil, h4, h0]

/-- The component state right after a successful `startRecording` on a fresh
screen with permission granted. -/
def recordingComponent : Component :=
  ⟨{ initialState with
      hasAudioPermission := true
      isRecording := true
      isListening := true },
   { recordingRef := some 0
     timeoutArmed := true
     isRecordingRef := true
     isMountedRef := true }⟩

def recordingWorld : World := ⟨1, [0]⟩

theorem timer_and_manual_stop_exactly_once_witness :
    effectiveStops (recordingComponent, recordingWorld) [StopEv.manual ⟨false, 0⟩] = 1 :=
  timer_and_manual_stop_exactly_once recordingComponent recordingWorld 0
    [StopEv.manual ⟨false, 0⟩] rfl rfl rfl rfl (by decide)

/-- C3: stop() with no live recording session (recording flag false or null
recording reference) is a no-op: it produces no utterance (so no
transcription is started and the input field is untouched), raises no error
alert (the only effect is the haptic pulse), leaves the native layer
untouched, and clears the recording/listening flags. -/
theorem stop_without_session_noop (c : Component) (w : World) (env : StopEnv)
    (hm : c.refs.isMountedRef = true)
    (h : c.refs.isRecordingRef = false ∨ c.refs.recordingRef = none) :
    (stopRecording c w env).uri = none ∧
    (stopRecording c w env).comp.st.isRecording = false ∧
    (stopRecording c w env).comp.st.isListening = false ∧
    (stopRecording c w env).comp.st.isTranscribing = c.st.isTranscribing ∧
    (stopRecording c w env).comp.st.inputText = c.st.inputText ∧
    (stopRecording c w env).effects = [Effect.vibrate 100] ∧
    (stopRecording c w env).world = w := by
  simp [stopRecording, iff_true_intro h, clearedFlags, hm]

theorem stop_without_session_noop_witness :
    (stopRecording initialComponent initialWorld ⟨false, 0⟩).uri = none ∧
    (stopRecording initialComponent initialWorld ⟨false, 0⟩).comp.st.isRecording = false ∧
    (stopRecording initialComponent initialWorld ⟨false, 0⟩).comp.st.isListening = false ∧
    (stopRecording initialComponent initialWorld ⟨false, 0⟩).comp.st.isTranscribing
      = initialComponent.st.isTranscribing ∧
    (stopRecording initialComponent initialWorld ⟨false, 0⟩).comp.st.inputText
      = initialComponent.st.inputText ∧
    (stopRecording initialComponent initialWorld ⟨false, 0⟩).effects
      = [Effect.vibrate 100] ∧
    (stopRecording initialComponent initialWorld ⟨false, 0⟩).world = initialWorld :=
  stop_without_session_noop initialComponent initialWorld ⟨false, 0⟩ rfl (Or.inl rfl)

lemma startRecording_mounted (c : Component) (w : World) (p : Bool) :
    (startRecording c w p).1.refs.isMountedRef = c.refs.isMountedRef := by
  unfold startRecording
  cases p <;> split <;> rfl

/-- Under the ownership invariant, any `stopRecording` call on a mounted
component clears the reference and the flags and leaves no live resource,
whatever the stop-failure outcome. -/
lemma stop_resets (c : Component) (w : World) (env : StopEnv)
    (hm : c.refs.isMountedRef = true) (hinv : CaptureInv c w) :
    (stopRecording c w env).comp.refs.recordingRef = none ∧
    (stopRecording c w env).comp.refs.isRecordingRef = false ∧
    (stopRecording c w env).comp.st.isRecording = false ∧
    (stopRecording c w env).comp.st.isListening = false ∧
    (stopRecording c w env).world.liveIds = [] := by
  by_cases hg : c.refs.isRecordingRef = false ∨ c.refs.recordingRef = none
  · have hrec : c.refs.isRecordingRef = false ∧ c.refs.recordingRef = none := by
      rcases hinv with ⟨hl, hs⟩ | ⟨id, hl, href, hrecT⟩
      · rcases hg with hg | hg
        · refine ⟨hg, ?_⟩
          rw [hg] at hs
          cases hr : c.refs.recordingRef with
          | none => rfl
          | some v => rw [hr] at hs; simp at hs
        · rw [hg] at hs
          exact ⟨hs, hg⟩
      · rcases hg with hg | hg
        · rw [hrecT] at hg; simp at hg
        · rw [href] at hg; simp at hg
    have hlive : w.liveIds = [] := by
      rcases hinv with ⟨hl, _⟩ | ⟨id, hl, href, _⟩
      · exact hl
      · rw [hrec.2] at href; simp at href
    simp [stopRecording, iff_true_intro hg, clearedFlags, hm, hrec.1, hrec.2, hlive]
  · rcases hinv with ⟨hl, hs⟩ | ⟨id, hl, href, hrecT⟩
    · have hlive : w.liveIds.contains (c.refs.recordingRef.getD 0) = false := by
        rw [hl]; rfl
      refine ⟨?_, ?_, ?_, ?_, ?_⟩ <;>
        simp [stopRecording, iff_false_intro hg, clearedFlags, hm, hlive, hl,
          processRecordedAudio]
    · have hid : c.refs.recordingRef.getD 0 = id := by rw [href]; rfl
      have hlive : w.liveIds.contains (c.refs.recordingRef.getD 0) = true := by
        rw [hid, hl]; simp
      cases henv : env.stopThrows <;>
        refine ⟨?_, ?_, ?_, ?_, ?_⟩ <;>
          simp [stopRecording, iff_false_intro hg, clearedFlags, hm, hid, hlive, hl,
            processRecordedAudio, henv]

/-- C8: start() followed immediately by stop(), under every acquisition
outcome (including acquisition failure, where the live status never reached
recording) and every stop outcome (including a throwing stop call), leaves
the controller idle: recording reference null, live-recording flag false, UI
flags cleared, and no native resource live. -/
theorem start_then_immediate_stop_idle (c : Component) (w : World) (p : Bool)
    (env : StopEnv) (hm : c.refs.isMountedRef = true) (hinv : CaptureInv c w) :
    (stopRecording (startRecording c w p).1 (startRecording c w p).2.1 env).comp.refs.recordingRef
        = none ∧
    (stopRecording (startRecording c w p).1 (startRecording c w p).2.1 env).comp.refs.isRecordingRef
        = false ∧
    (stopRecording (startRecording c w p).1 (startRecording c w p).2.1 env).comp.st.isRecording
        = false ∧
    (stopRecording (startRecording c w p).1 (startRecording c w p).2.1 env).comp.st.isListening
        = false ∧
    (stopRecording (startRecording c w p).1 (startRecording c w p).2.1 env).world.liveIds
        = [] := by
  have hm1 : (startRecording c w p).1.refs.isMountedRef = true := by
    rw [startRecording_mounted]; exact hm
  exact stop_resets _ _ env hm1 (inv_start c w p hinv)

/-- A fresh screen whose microphone permission request has been granted. -/
def grantedComponent : Component :=
  ⟨{ initialState with hasAudioPermission := true }, initialRefs⟩

theorem start_then_immediate_stop_idle_witness :
    (stopRecording (startRecording grantedComponent initialWorld true).1
        (startRecording grantedComponent initialWorld true).2.1 ⟨true, 0⟩).comp.refs.recordingRef
        = none ∧
    (stopRecording (startRecording grantedComponent initialWorld true).1
        (startRecording grantedComponent initialWorld true).2.1 ⟨true, 0⟩).comp.refs.isRecordingRef
        = false ∧
    (stopRecording (startRecording grantedComponent initialWorld true).1
        (startRecording grantedComponent initialWorld true).2.1 ⟨true, 0⟩).comp.st.isRecording
        = false ∧
    (stopRecording (startRecording grantedComponent initialWorld true).1
        (startRecording grantedComponent initialWorld true).2.1 ⟨true, 0⟩).comp.st.isListening
        = false ∧
    (stopRecording (startRecording grantedComponent initialWorld true).1
        (startRecording grantedComponent initialWorld true).2.1 ⟨true, 0⟩).world.liveIds
        = [] :=
  start_then_immediate_stop_idle grantedComponent initialWorld true ⟨true, 0⟩ rfl
    (Or.inl ⟨rfl, rfl⟩)

/-- A screen that has been torn down: the unmount effect has set
`isMountedRef.current = false`. -/
def unmountedComponent : Component :=
  ⟨initialState, { initialRefs with isMountedRef := false }⟩

/-- C4 counterexample: the claim that every state write after a suspension
point is guarded by the liveness flag fails for the language-catalog fetch —
`loadLanguages` calls `setLanguages` without consulting `isMountedRef`, so a
fetch that resolves after teardown still mutates the screen state. -/
theorem teardown_guard_counterexample :
    ¬ ((loadLanguages unmountedComponent LoadOutcome.fail).1.st
        = unmountedComponent.st) := by
  decide

/-- C4 amended: the liveness-flag guard does hold for the capture,
transcription and translation steps — when the component is unmounted,
`startRecording`, `stopRecording`, `processRecordedAudio` and
`handleTranslate` leave the screen state entirely untouched — but not for
the permission request (`setupAudio`) and the language-catalog fetch
(`loadLanguages`), which write `hasAudioPermission` resp. `languages`
without consulting the flag. -/
theorem unmounted_handlers_no_state_write (c : Component)
    (h : c.refs.isMountedRef = false) (w : World) (p : Bool) (env : StopEnv)
    (r : Nat) (snap : ScreenState) (o : Option String) :
    (startRecording c w p).1.st = c.st ∧
    (stopRecording c w env).comp.st = c.st ∧
    (processRecordedAudio c r).1.st = c.st ∧
    (handleTranslate snap c o).1.st = c.st := by
  refine ⟨?_, ?_, ?_, ?_⟩
  · unfold startRecording cleanupRecording
    cases p <;> split <;> simp [clearedFlags, h]
  · by_cases hg : c.refs.isRecordingRef = false ∨ c.refs.recordingRef = none
    · simp [stopRecording, iff_true_intro hg, clearedFlags, h]
    · simp [stopRecording, iff_false_intro hg, clearedFlags, processRecordedAudio, h]
      split <;> rfl
  · simp [processRecordedAudio, h]
  · unfold handleTranslate
    split
    · rfl
    · simp [h]

theorem unmounted_handlers_no_state_write_witness :
    (startRecording unmountedComponent initialWorld true).1.st
        = unmountedComponent.st ∧
    (stopRecording unmountedComponent initialWorld ⟨false, 0⟩).comp.st
        = unmountedComponent.st ∧
    (processRecordedAudio unmountedComponent 0).1.st = unmountedComponent.st ∧
    (handleTranslate initialState unmountedComponent (some "Yebo")).1.st
        = unmountedComponent.st :=
  unmounted_handlers_no_state_write unmountedComponent rfl initialWorld true
    ⟨false, 0⟩ 0 initialState (some "Yebo")

/-- C5: when the translation request fails (network error or non-2xx
response), the failure is surfaced as an alert, the source input text is
preserved unchanged for retry, the translated-text field stays empty, and
the loading flag is back to false — no partial translation state persists. -/
theorem translate_failure_preserves_state (c : Component)
    (hm : c.refs.isMountedRef = true) (hin : jsTrim c.st.inputText ≠ "")
    (hempty : c.st.translatedText = "") :
    (handleTranslateNow c none).1.st.inputText = c.st.inputText ∧
    (handleTranslateNow c none).1.st.translatedText = "" ∧
    (handleTranslateNow c none).1.st.loading = false ∧
    Effect.alert "Translation Error"
        "Failed to translate text. Please check your connection and try again."
      ∈ (handleTranslateNow c none).2 := by
  simp [handleTranslateNow, handleTranslate, hin, hm, hempty]

/-- A fresh screen on which the user has typed "Thank you". -/
def typedComponent : Component :=
  ⟨{ initialState with inputText := "Thank you" }, initialRefs⟩

theorem translate_failure_preserves_state_witness :
    (handleTranslateNow typedComponent none).1.st.inputText
        = typedComponent.st.inputText ∧
    (handleTranslateNow typedComponent none).1.st.translatedText = "" ∧
    (handleTranslateNow typedComponent none).1.st.loading = false ∧
    Effect.alert "Translation Error"
        "Failed to translate text. Please check your connection and try again."
      ∈ (handleTranslateNow typedComponent none).2 :=
  translate_failure_preserves_state typedComponent rfl (by decide) rfl

/-- A screen holding a previous translation: input "Thank you", previous
result "Sawubona". -/
def staleComponent : Component :=
  ⟨{ initialState with
      inputText := "Thank you"
      translatedText := "Sawubona" },
   initialRefs⟩

/-- C6: evaluation at the failing input.  The code intends to auto-speak the
just-returned translation ("Auto-speak the translation", line 746), but the
deferred `setTimeout(() => speakTranslatedText(), 500)` closure reads the
render snapshot from before `setTranslatedText`: on the first translation of
a session (`translatedText` still empty) the successful en→zu translation of
"Thank you" into "Ngiyabonga" stores the new text yet emits no speak effect
at all, and when a previous translation "Sawubona" is present, that stale
text is spoken (with the correctly mapped locale zu-ZA) instead of
"Ngiyabonga". -/
theorem translate_success_speaks_stale_text :
    (handleTranslateNow typedComponent (some "Ngiyabonga")).1.st.translatedText
        = "Ngiyabonga" ∧
    (handleTranslateNow typedComponent (some "Ngiyabonga")).2
        = [Effect.httpTranslate "Thank you" "en" "zu"] ∧
    (handleTranslateNow staleComponent (some "Ngiyabonga")).2
        = [Effect.httpTranslate "Thank you" "en" "zu",
           Effect.speak "Sawubona" "zu-ZA"] := by
  refine ⟨?_, ?_, ?_⟩ <;> decide

/-- A screen on which the user previously typed "Hello" and then taps a quick
phrase. -/
def preTypedComponent : Component :=
  ⟨{ initialState with inputText := "Hello" }, initialRefs⟩

/-- C7: evaluation at the failing input.  A quick-phrase tap does bypass
capture and transcription, but the deferred
`setTimeout(() => handleTranslate(), 100)` closure reads the input snapshot
from before `setInputText(phrase)`: on a fresh screen, tapping "Thank you"
sets the input field yet issues no translation request at all (the stale
empty snapshot hits the "Please enter text to translate" alert), and with
previously typed text "Hello" the request carries "Hello", not the tapped
phrase. -/
theorem quick_phrase_translates_stale_snapshot :
    (handleQuickPhrase initialComponent "Thank you" (some "Ngiyabonga")).1.st.inputText
        = "Thank you" ∧
    (handleQuickPhrase initialComponent "Thank you" (some "Ngiyabonga")).2
        = [Effect.alert "Error" "Please enter text to translate"] ∧
    (handleQuickPhrase preTypedComponent "Thank you" (some "Molo")).2
        = [Effect.httpTranslate "Hello" "en" "zu"] := by
  refine ⟨?_, ?_, ?_⟩ <;> decide

/-- C9: if fetching the language catalog fails (network error or non-OK
response), the list falls back to exactly the four hard-coded languages
isiZulu zu, isiXhosa xh, Afrikaans af, Sesotho st; on success the fetched
catalog is used. -/
theorem language_catalog_fallback (c : Component) (ls : List Language) :
    (loadLanguages c LoadOutcome.fail).1.st.languages =
      [⟨1, "zu", "isiZulu"⟩, ⟨2, "xh", "isiXhosa"⟩, ⟨3, "af", "Afrikaans"⟩,
       ⟨4, "st", "Sesotho"⟩] ∧
    (loadLanguages c LoadOutcome.fail).1.st.languages.length = 4 ∧
    (loadLanguages c (LoadOutcome.ok (some ls))).1.st.languages = ls :=
  ⟨rfl, rfl, rfl⟩

lemma clearedFlags_duration (st : ScreenState) (m : Bool) :
    (clearedFlags st m).recordingDuration = st.recordingDuration := by
  unfold clearedFlags
  split <;> rfl

lemma processRecordedAudio_duration (c : Component) (r : Nat) :
    (processRecordedAudio c r).1.st.recordingDuration = c.st.recordingDuration := by
  unfold processRecordedAudio
  split <;> rfl

lemma stopRecording_duration (c : Component) (w : World) (env : StopEnv) :
    (stopRecording c w env).comp.st.recordingDuration = c.st.recordingDuration := by
  unfold stopRecording
  split
  · simp [clearedFlags_duration]
  · simp [processRecordedAudio_duration, clearedFlags_duration]
    split <;> simp [processRecordedAudio_duration, clearedFlags_duration]

lemma startRecording_duration (c : Component) (w : World) (p : Bool) :
    (startRecording c w p).1.st.recordingDuration = c.st.recordingDuration := by
  unfold startRecording cleanupRecording
  cases p <;> split <;>
    simp [clearedFlags_duration, apply_ite ScreenState.recordingDuration]

lemma handleTranslate_duration (snap : ScreenState) (c : Component) (o : Option String) :
    (handleTranslate snap c o).1.st.recordingDuration = c.st.recordingDuration := by
  unfold handleTranslate
  split
  · rfl
  · split
    · rfl
    · cases o <;> rfl

/-- C10: the displayed recording duration starts at 0 when the screen is
created and is never reset by any operation: the only write is the
per-second increment while recording, every operation leaves the counter
non-decreasing, and in particular a new capture session's start preserves
the previous session's final value, so the display keeps counting up from
it. -/
theorem recording_duration_never_reset :
    initialState.recordingDuration = 0 ∧
    (∀ (cw : Component × World) (op : Op),
      cw.1.st.recordingDuration ≤ (runOp cw op).1.st.recordingDuration) ∧
    (∀ (c : Component) (w : World) (p : Bool),
      (startRecording c w p).1.st.recordingDuration = c.st.recordingDuration) := by
  refine ⟨rfl, ?_, fun c w p => startRecording_duration c w p⟩
  intro cw op
  cases op with
  | start p => exact (startRecording_duration cw.1 cw.2 p).ge
  | stop env => exact (stopRecording_duration cw.1 cw.2 env).ge
  | cleanup => exact (clearedFlags_duration cw.1.st _).ge
  | timer env =>
      show cw.1.st.recordingDuration ≤ (timerExpire cw.1 cw.2 env).comp.st.recordingDuration
      unfold timerExpire
      split
      · exact le_rfl
      · cases hr : cw.1.refs.isRecordingRef with
        | true =>
            simp [hr]
            exact (stopRecording_duration
              ⟨cw.1.st,
               { recordingRef := cw.1.refs.recordingRef, timeoutArmed := false,
                 isRecordingRef := true,
                 isMountedRef := cw.1.refs.isMountedRef }⟩ cw.2 env).ge
        | false => simp [hr]
  | tick =>
      show cw.1.st.recordingDuration ≤ (durationTick cw.1).st.recordingDuration
      unfold durationTick
      split
      · exact Nat.le_succ _
      · exact le_rfl
  | load o => cases o <;> exact le_rfl
  | permission g =>
      show cw.1.st.recordingDuration ≤ (setupAudio cw.1 g).1.st.recordingDuration
      unfold setupAudio
      split <;> exact le_rfl
  | translate o => exact (handleTranslate_duration cw.1.st cw.1 o).ge
  | quickPhrase p o =>
      show cw.1.st.recordingDuration ≤ (handleQuickPhrase cw.1 p o).1.st.recordingDuration
      unfold handleQuickPhrase
      split
      · exact le_rfl
      · exact (handleTranslate_duration cw.1.st
          ⟨{ cw.1.st with inputText := p }, cw.1.refs⟩ o).ge

end TaxiTranslator
